import Mathlib

/-!
Verification of `lega_tester/inbox_ops.py` (LocalEGA-tester).

The Python module is shallowly embedded: paths are lists of characters,
the path helpers (`os.path.splitext`, `os.path.basename`,
`os.path.expanduser`) are translated from CPython's `posixpath`
implementation, and each operation of the module is a pure function from
an environment (which external calls succeed or which exception they
inject), a local file table and a remote-object state to a trace of the
external calls it performs, the resulting state and a result
(`Except PyExc`).  The tenacity retry decorator on
`open_ssh_connection` is modelled as an explicit fuelled loop.
-/

namespace InboxOps

/-- Index of the last occurrence of `c` in `p` (Python `str.rfind`,
returning `none` instead of `-1`). -/
def rfindIdx (c : Char) : List Char → Option Nat
  | [] => none
  | x :: xs =>
    match rfindIdx c xs with
    | some i => some (i + 1)
    | none => if x = c then some 0 else none

/-- `posixpath.splitext`: split off the extension at the last dot that
lies after the last slash, provided the final component is not made of
dots only up to that position. -/
def splitextL (p : List Char) : List Char × List Char :=
  match rfindIdx '.' p with
  | none => (p, [])
  | some d =>
    let s : Nat :=
      match rfindIdx '/' p with
      | some i => i + 1
      | none => 0
    if s ≤ d ∧ ((p.drop s).take (d - s)).any (fun c => c ≠ '.') then
      (p.take d, p.drop d)
    else (p, [])

/-- `posixpath.basename`: everything after the last slash. -/
def basenameL (p : List Char) : List Char :=
  match rfindIdx '/' p with
  | some i => p.drop (i + 1)
  | none => p

/-- Index of the first occurrence of `c` in `p` at position `s` or
later (Python `str.find(c, s)`). -/
def findFrom (c : Char) (s : Nat) (p : List Char) : Option Nat :=
  match (p.drop s).findIdx? (fun x => x = c) with
  | some j => some (s + j)
  | none => none

/-- Strip trailing slashes (Python `str.rstrip('/')`). -/
def rstripSlash (s : List Char) : List Char :=
  (s.reverse.dropWhile (fun c => c = '/')).reverse

/-- The parts of the process environment `posixpath.expanduser`
consults: the value of `HOME` and the passwd database. -/
structure UserEnv where
  home : List Char
  pwnam : List Char → Option (List Char)

/-- `posixpath.expanduser`: expand a leading `~` or `~user`. -/
def expanduserL (u : UserEnv) (p : List Char) : List Char :=
  if p.head? = some '~' then
    let i := (findFrom '/' 1 p).getD p.length
    let uh? : Option (List Char) :=
      if i = 1 then some u.home
      else u.pwnam ((p.drop 1).take (i - 1))
    match uh? with
    | none => p
    | some uh =>
      let r := rstripSlash uh ++ p.drop i
      if r = [] then ['/'] else r
  else p

/-- The fixed artifact suffix `.c4ga`. -/
def c4gaSuffix : List Char := ".c4ga".data

/-- `output_base` as computed identically in `sftp_upload`,
`sftp_remove`, `s3_upload` and `s3_remove`:
`os.path.basename(os.path.splitext(file_path)[0])`. -/
def outputBase (p : List Char) : List Char :=
  basenameL (splitextL p).1

/-- The remote artifact name `f'{output_base}.c4ga'` used as SFTP
remote name and S3 object key. -/
def remoteArtifactName (p : List Char) : List Char :=
  outputBase p ++ c4gaSuffix

/-- The local path `encrypt_file` actually writes:
`f'{filename}.c4ga'` with `filename, _ = os.path.splitext(file_path)`
(not expanded). -/
def encWritten (p : List Char) : List Char :=
  (splitextL p).1 ++ c4gaSuffix

/-- The path `encrypt_file` returns:
`os.path.expanduser(f'{filename}.c4ga')`. -/
def encReturned (u : UserEnv) (p : List Char) : List Char :=
  expanduserL u (encWritten p)

end InboxOps

namespace InboxOps

/-- Python exceptions as they appear in `inbox_ops.py`: the kinds that
the module raises itself or lets through from the libraries it calls.
`encryptionError` is the wrapper named by the specification's error
taxonomy; it exists in the type so that claims about it can be stated. -/
inductive PyExc where
  | keyError : PyExc
  | ioError (msg : List Char) : PyExc
  | exception (msg : List Char) : PyExc
  | cryptError : PyExc
  | encryptionError (inner : PyExc) : PyExc
  | nameError : PyExc
  | otherError : PyExc
  deriving DecidableEq, Repr

/-- `true` exactly on the `EncryptionError` wrapper of the
specification's taxonomy. -/
def isEncryptionWrap : PyExc → Bool
  | .encryptionError _ => true
  | _ => false

instance {ε α : Type} [DecidableEq ε] [DecidableEq α] : DecidableEq (Except ε α) := fun x y =>
  match x, y with
  | .ok a, .ok b =>
    if h : a = b then .isTrue (congrArg Except.ok h)
    else .isFalse (fun hc => h (Except.ok.inj hc))
  | .error a, .error b =>
    if h : a = b then .isTrue (congrArg Except.error h)
    else .isFalse (fun hc => h (Except.error.inj hc))
  | .ok _, .error _ => .isFalse (fun hc => Except.noConfusion hc)
  | .error _, .ok _ => .isFalse (fun hc => Except.noConfusion hc)

/-- One external call of the module, as recorded in a trace. -/
inductive Event where
  | loadKey
  | transportCreate
  | transportConnect
  | setKeepalive
  | sftpInit
  | localIsFileCheck (p : List Char)
  | sftpPut (localPath remoteName : List Char)
  | sftpRemoveCall (remoteName : List Char)
  | transportClose
  | s3ClientCreate
  | s3ResourceCreate
  | s3BucketResource (bucket : List Char)
  | s3UploadFile (localPath bucket key : List Char)
  | s3DeleteKey (key : List Char)
  | remoteExistsCheck (name : List Char)
  | logDebug
  | logInfo
  | logError
  deriving DecidableEq, Repr

/-- Calls that reach the remote side (open a socket, negotiate SSH,
transfer or delete data).  Constructing a boto3 client or resource,
checking a local file and logging are local. -/
def isRemoteCall : Event → Bool
  | .transportCreate => true
  | .transportConnect => true
  | .sftpInit => true
  | .sftpPut _ _ => true
  | .sftpRemoveCall _ => true
  | .transportClose => true
  | .s3UploadFile _ _ _ => true
  | .s3DeleteKey _ => true
  | .remoteExistsCheck _ => true
  | _ => false

/-- A remote-existence probe (`stat`/`head_object`-like).  No function
of the module ever emits one. -/
def isExistsCheck : Event → Bool
  | .remoteExistsCheck _ => true
  | _ => false

/-- `true` when `e` occurs in the trace. -/
def hasEv (e : Event) : List Event → Bool
  | [] => false
  | x :: xs => if x = e then true else hasEv e xs

/-- Remote object store / inbox state: which names are present. -/
abbrev Remote : Type := List Char → Bool

/-- The state after the opaque put capability stores `name`. -/
def remotePut (r : Remote) (name : List Char) : Remote :=
  fun x => if x = name then true else r x

/-- The state after the opaque delete capability removes `name`. -/
def remoteDelete (r : Remote) (name : List Char) : Remote :=
  fun x => if x = name then false else r x

/-- An empty remote side. -/
def emptyRemote : Remote := fun _ => false

/-- Which external SFTP-side calls succeed in a given run. -/
structure SftpEnv where
  keyLoadOk : Bool
  transportOk : Bool
  connectOk : Bool
  sftpInitOk : Bool
  putOk : Bool
  deriving DecidableEq, Repr

/-- The environment in which every external call succeeds. -/
def sftpAllOk : SftpEnv :=
  { keyLoadOk := true, transportOk := true, connectOk := true,
    sftpInitOk := true, putOk := true }

/-- The `IOError` message of both upload functions (the braces are
literal: the source uses a plain, non-f string). -/
def missingLocalMsg : List Char := "Could not find localFile \x7bfile_path\x7d !!".data

/-- The error an SFTP server reports when removing an absent file. -/
def noSuchRemoteFileMsg : List Char := "No such file".data

/-- `sftp_upload(hostname, user, file_path, key_path, ...)`.

The body runs inside `try ... except Exception as e: LOG.error; raise e
finally: LOG.debug('sftp done'); transport.close()`.  When
`RSAKey.from_private_key_file` or the `Transport` constructor raises,
the local variable `transport` is still unbound, so the `finally`
block's `transport.close()` raises `NameError`, which replaces the
original exception; no transport exists to close on those paths.  The
existence check `os.path.isfile(file_path)` happens only after the
transport is connected and the SFTP channel is open. -/
def sftp_upload (env : SftpEnv) (loc : List (List Char)) (remote : Remote)
    (file_path : List Char) : List Event × Remote × Except PyExc Unit :=
  if env.keyLoadOk = false then
    ([.logError, .logDebug], remote, .error .nameError)
  else if env.transportOk = false then
    ([.loadKey, .logError, .logDebug], remote, .error .nameError)
  else if env.connectOk = false then
    ([.loadKey, .transportCreate, .transportConnect, .logError, .logDebug,
      .transportClose], remote, .error .otherError)
  else if env.sftpInitOk = false then
    ([.loadKey, .transportCreate, .transportConnect, .setKeepalive, .logDebug,
      .sftpInit, .logError, .logDebug, .transportClose], remote, .error .otherError)
  else
    let rname := remoteArtifactName file_path
    let pre : List Event :=
      [.loadKey, .transportCreate, .transportConnect, .setKeepalive, .logDebug,
       .sftpInit, .localIsFileCheck file_path]
    if file_path ∈ loc then
      if env.putOk then
        (pre ++ [.sftpPut file_path rname, .logInfo, .logDebug, .transportClose],
         remotePut remote rname, .ok ())
      else
        (pre ++ [.sftpPut file_path rname, .logError, .logDebug, .transportClose],
         remote, .error .otherError)
    else
      (pre ++ [.logError, .logDebug, .transportClose], remote,
       .error (.ioError missingLocalMsg))

/-- `sftp_remove(hostname, user, file_path, key_path, ...)`.

Calls `sftp.remove(f'{output_base}.c4ga')` unconditionally — there is
no prior existence probe; the opaque SFTP remove capability succeeds
exactly when the name is present remotely and raises the server's
missing-file error otherwise. -/
def sftp_remove (env : SftpEnv) (remote : Remote)
    (file_path : List Char) : List Event × Remote × Except PyExc Unit :=
  if env.keyLoadOk = false then
    ([.logError, .logDebug], remote, .error .nameError)
  else if env.transportOk = false then
    ([.loadKey, .logError, .logDebug], remote, .error .nameError)
  else if env.connectOk = false then
    ([.loadKey, .transportCreate, .transportConnect, .logError, .logDebug,
      .transportClose], remote, .error .otherError)
  else if env.sftpInitOk = false then
    ([.loadKey, .transportCreate, .transportConnect, .setKeepalive, .logDebug,
      .sftpInit, .logError, .logDebug, .transportClose], remote, .error .otherError)
  else
    let rname := remoteArtifactName file_path
    let pre : List Event :=
      [.loadKey, .transportCreate, .transportConnect, .setKeepalive, .logDebug,
       .sftpInit, .sftpRemoveCall rname]
    if remote rname then
      (pre ++ [.logInfo, .logDebug, .transportClose],
       remoteDelete remote rname, .ok ())
    else
      (pre ++ [.logError, .logDebug, .transportClose], remote,
       .error (.ioError noSuchRemoteFileMsg))

/-- Which external S3-side calls succeed in a given run. -/
structure S3Env where
  uploadOk : Bool
  deriving DecidableEq, Repr

/-- `s3_connection(address, bucket_name, region_name, access, secret,
ssl_enable, root_ca)`: constructs a boto3 client (a purely local
operation — boto3 performs no network traffic on client construction),
logs, and implicitly returns `None`.  It never touches the remote
state. -/
def s3_connection (remote : Remote) : List Event × Remote × Option Unit :=
  ([.s3ClientCreate, .logDebug], remote, none)

/-- `s3_upload(address, bucket_name, region_name, file_path, access,
secret, ssl_enable, root_ca)`: builds the client locally, checks
`os.path.isfile(file_path)` and only then calls `upload_file`; a
missing local file raises `IOError` before any remote traffic.  There
is no `try` in this function, so failures propagate unlogged. -/
def s3_upload (env : S3Env) (loc : List (List Char)) (remote : Remote)
    (file_path bucket : List Char) : List Event × Remote × Except PyExc Unit :=
  let key := remoteArtifactName file_path
  let pre : List Event := [.s3ClientCreate, .logDebug, .localIsFileCheck file_path]
  if file_path ∈ loc then
    if env.uploadOk then
      (pre ++ [.s3UploadFile file_path bucket key, .logInfo],
       remotePut remote key, .ok ())
    else
      (pre ++ [.s3UploadFile file_path bucket key], remote, .error .otherError)
  else
    (pre, remote, .error (.ioError missingLocalMsg))

/-- `s3_remove(address, bucket_name, region_name, file_path, access,
secret, ssl_enable, root_ca)`: builds an S3 resource, resolves the
bucket by name, and issues `my_bucket.delete_key(f'{output_base}.c4ga')`
with no prior existence probe; the opaque delete capability removes the
key from the remote state. -/
def s3_remove (remote : Remote)
    (file_path bucket : List Char) : List Event × Remote × Except PyExc Unit :=
  let key := remoteArtifactName file_path
  ([.s3ResourceCreate, .logDebug, .s3BucketResource bucket, .s3DeleteKey key],
   remoteDelete remote key, .ok ())

/-- Insert a file name into the local file table (creating or
truncating a file by `open(..., 'wb')` leaves an already-present name
in place). -/
def insertFile (name : List Char) (loc : List (List Char)) : List (List Char) :=
  if name ∈ loc then loc else name :: loc

/-- Exception injections for the external calls `encrypt_file` makes,
in source order: `get_public_key`, `get_private_key`,
`open(file_path, 'rb')` (beyond plain absence of the file),
`open(f'\x7bfilename\x7d.c4ga', 'wb')`, and `crypt4gh.lib.encrypt`. -/
structure EncEnv where
  pubKeyExc : Option PyExc
  secKeyExc : Option PyExc
  openSrcExc : Option PyExc
  openOutExc : Option PyExc
  cryptExc : Option PyExc

/-- The environment in which every external call of `encrypt_file`
succeeds. -/
def encAllOk : EncEnv :=
  { pubKeyExc := none, secKeyExc := none, openSrcExc := none,
    openOutExc := none, cryptExc := none }

/-- The `FileNotFoundError` from `open(file_path, 'rb')` on an absent
source. -/
def srcMissingMsg : List Char := "No such file or directory".data

/-- `encrypt_file(file_path, recipient_pubkey, private_key, passphrase)`.

Key loading and the `open(file_path, 'rb')` of the source happen
before the `try:` block, so their exceptions propagate unchanged and
unlogged.  Inside the `try`, `open(f'\x7bfilename\x7d.c4ga', 'wb')` creates or
truncates the destination (the un-expanded name) before `encrypt` runs;
a failure of `encrypt` is printed and then re-raised unchanged
(`raise e`), leaving the destination file behind.  On success the
function returns `output_file = os.path.expanduser(f'\x7bfilename\x7d.c4ga')`.
Returns the local file table after the call and the result. -/
def encrypt_file (env : EncEnv) (u : UserEnv) (loc : List (List Char))
    (file_path : List Char) : List (List Char) × Except PyExc (List Char) :=
  let filename := (splitextL file_path).1
  let output_file := expanduserL u (filename ++ c4gaSuffix)
  match env.pubKeyExc with
  | some e => (loc, .error e)
  | none =>
    match env.secKeyExc with
    | some e => (loc, .error e)
    | none =>
      if file_path ∈ loc then
        match env.openSrcExc with
        | some e => (loc, .error e)
        | none =>
          match env.openOutExc with
          | some e => (loc, .error e)
          | none =>
            let loc1 := insertFile (filename ++ c4gaSuffix) loc
            match env.cryptExc with
            | some e => (loc1, .error e)
            | none => (loc1, .ok output_file)
      else (loc, .error (.ioError srcMissingMsg))

/-- The first failure `encrypt_file` runs into, in the evaluation
order of its body; `none` when every step succeeds. -/
def encFirstFailure (env : EncEnv) (loc : List (List Char))
    (file_path : List Char) : Option PyExc :=
  match env.pubKeyExc with
  | some e => some e
  | none =>
    match env.secKeyExc with
    | some e => some e
    | none =>
      if file_path ∈ loc then
        match env.openSrcExc with
        | some e => some e
        | none =>
          match env.openOutExc with
          | some e => some e
          | none => env.cryptExc
      else some (.ioError srcMissingMsg)

/-- `true` when no exception injected in `env` is itself the
`EncryptionError` wrapper (injections model raw library failures). -/
def encEnvRaw (env : EncEnv) : Bool :=
  (env.pubKeyExc.all fun e => !isEncryptionWrap e) &&
  (env.secKeyExc.all fun e => !isEncryptionWrap e) &&
  (env.openSrcExc.all fun e => !isEncryptionWrap e) &&
  (env.openOutExc.all fun e => !isEncryptionWrap e) &&
  (env.cryptExc.all fun e => !isEncryptionWrap e)

/-- Outcome of one underlying connection attempt inside
`open_ssh_connection`: success, one of the three paramiko exception
kinds the function recognizes, or any other exception (for example the
`FileNotFoundError` of a missing key file). -/
inductive ProbeAttempt where
  | success
  | badHostKey
  | authFail
  | sshFail
  | otherFail
  deriving DecidableEq, Repr

/-- The body of `open_ssh_connection` for one attempt against
`hostname`: each recognized paramiko exception is logged and re-raised
as a generic `Exception` with a tagged message; anything else
propagates unchanged.  The `finally: client.close()` always runs
(`client` is bound by the first statement of the `try`). -/
def probeBody (hostname : List Char) : ProbeAttempt → Except PyExc Unit
  | .success => .ok ()
  | .badHostKey => .error (.exception ("BadHostKeyException on ".data ++ hostname))
  | .authFail => .error (.exception ("AuthenticationException on ".data ++ hostname))
  | .sshFail => .error (.exception ("SSHException on ".data ++ hostname))
  | .otherFail => .error .otherError

/-- `tenacity.stop_after_delay`: stop once the elapsed seconds reach
the ceiling. -/
def stopAfterDelay (ceiling elapsed : Nat) : Bool :=
  ceiling ≤ elapsed

/-- `tenacity.wait_fixed(2)`: seconds slept between attempts. -/
def waitFixedSeconds : Nat := 2

/-- Second at which attempt `n` (0-indexed) starts: attempts are
instantaneous in the model, separated by the fixed 2-second wait. -/
def attemptStart (n : Nat) : Nat := waitFixedSeconds * n

/-- Result of a tenacity-decorated call: success after a number of
attempts, or `RetryError` holding the last exception once the stop
condition fired. -/
inductive ProbeResult where
  | succeeded (attempts : Nat)
  | retryError (attempts : Nat) (last : PyExc)
  | fuelOut
  deriving DecidableEq, Repr

/-- The retry loop of `@retry(wait=wait_fixed(2),
stop=stop_after_delay(14400))` with the default retry predicate, which
retries on any `Exception`: after a failed attempt `n` the stop
condition is checked against the elapsed time and, if it does not
fire, the loop sleeps 2 seconds and attempts again.  `fuel` bounds the
recursion; `fuel = 7202` is more than the 7201 attempts the stop
condition allows.  Returns the attempt indices tried and the result. -/
def tenacityRun (body : Nat → Except PyExc Unit) :
    Nat → Nat → List Nat × ProbeResult
  | 0, _ => ([], .fuelOut)
  | fuel + 1, n =>
    match body n with
    | .ok _ => ([n], .succeeded (n + 1))
    | .error e =>
      if stopAfterDelay 14400 (attemptStart n) then
        ([n], .retryError (n + 1) e)
      else
        let rest := tenacityRun body fuel (n + 1)
        (n :: rest.1, rest.2)

/-- `open_ssh_connection(hostname, user, key_path, ...)` as decorated:
the underlying attempt outcomes are given by `att`. -/
def open_ssh_connection (hostname : List Char) (att : Nat → ProbeAttempt) :
    List Nat × ProbeResult :=
  tenacityRun (fun n => probeBody hostname (att n)) 7202 0

/-- `true` when any transport acquired during the call was also
closed: either no transport was created, or a close occurred. -/
def closesAcquiredTransport (t : List Event) : Bool :=
  !(hasEv .transportCreate t) || hasEv .transportClose t

/-- A concrete user environment: `HOME=/root`, empty passwd db. -/
def uRoot : UserEnv := ⟨"/root".data, fun _ => none⟩

/-- A concrete `encrypt_file` environment whose public-key load fails
with a raw key error. -/
def encBadPubKey : EncEnv :=
  { pubKeyExc := some .keyError, secKeyExc := none, openSrcExc := none,
    openOutExc := none, cryptExc := none }

end InboxOps




namespace InboxOps

example : splitextL "foo.txt".data = ("foo".data, ".txt".data) := by decide

example : splitextL "/tmp/foo.txt".data = ("/tmp/foo".data, ".txt".data) := by decide

example : splitextL ".bashrc".data = (".bashrc".data, ([] : List Char)) := by decide

example : basenameL "/tmp/foo".data = "foo".data := by decide

example : expanduserL uRoot "~/data.c4ga".data = "/root/data.c4ga".data := by decide

example : expanduserL uRoot "/tmp/foo.c4ga".data = "/tmp/foo.c4ga".data := by decide

theorem rfindIdx_lt_length {c : Char} {p : List Char} {i : Nat}
    (h : rfindIdx c p = some i) : i < p.length := by
  induction p generalizing i with
  | nil => simp [rfindIdx] at h
  | cons x xs ih =>
    cases hx : rfindIdx c xs with
    | some j =>
      simp only [rfindIdx, hx, Option.some.injEq] at h
      have := ih hx
      simp only [List.length_cons]
      omega
    | none =>
      simp only [rfindIdx, hx] at h
      split at h
      · simp only [Option.some.injEq] at h
        simp only [List.length_cons]
        omega
      · exact absurd h (by simp)

theorem rfindIdx_append_none {c : Char} {s : List Char}
    (hs : rfindIdx c s = none) (p : List Char) :
    rfindIdx c (p ++ s) = rfindIdx c p := by
  induction p with
  | nil => simpa using hs
  | cons x xs ih =>
    have ih' : rfindIdx c (xs.append s) = rfindIdx c xs := ih
    simp only [List.cons_append, rfindIdx]
    rw [ih']

theorem basenameL_append {s : List Char} (hs : rfindIdx '/' s = none)
    (p : List Char) : basenameL (p ++ s) = basenameL p ++ s := by
  unfold basenameL
  rw [rfindIdx_append_none hs]
  cases hp : rfindIdx '/' p with
  | none => rfl
  | some i =>
    have hi := rfindIdx_lt_length hp
    exact List.drop_append_of_le_length (by omega)

/-- C1 (amended): `encrypt_file` returns the tilde-expanded source
path with its extension replaced by `.c4ga` — a full path, not the
source's basename.  The basename of the written artifact equals
`<source-basename-without-extension>.c4ga`, and that is exactly the
name `remoteArtifactName` used by `sftp_upload`, `sftp_remove`,
`s3_upload` and `s3_remove` as SFTP remote name and S3 object key. -/
theorem C1_artifact_naming (u : UserEnv) (p : List Char) :
    encReturned u p = expanduserL u (encWritten p)
    ∧ basenameL (encWritten p) = remoteArtifactName p
    ∧ remoteArtifactName p = outputBase p ++ c4gaSuffix := by
  refine ⟨rfl, ?_, rfl⟩
  unfold encWritten remoteArtifactName outputBase
  exact basenameL_append (by decide) _

/-- C1 counterexample: for the source `/tmp/foo.txt`, `encrypt_file`
returns `/tmp/foo.c4ga`, which is not the basename-derived name
`foo.c4ga` used as SFTP remote name and S3 object key. -/
theorem C1_counterexample :
    (encrypt_file encAllOk uRoot ["/tmp/foo.txt".data] "/tmp/foo.txt".data).2
      = .ok "/tmp/foo.c4ga".data
    ∧ "/tmp/foo.c4ga".data ≠ remoteArtifactName "/tmp/foo.txt".data
    ∧ remoteArtifactName "/tmp/foo.txt".data = "foo.c4ga".data := by
  refine ⟨by decide, by decide, by decide⟩

/-- C5: `s3_remove` constructs an S3 resource, resolves the bucket by
name, and issues a single delete of the key
`<source-basename-without-extension>.c4ga`; its trace contains no
remote-existence probe, and the remote state afterwards lacks the
key. -/
theorem C5_s3_remove (remote : Remote) (p bucket : List Char) :
    (s3_remove remote p bucket).1
      = [.s3ResourceCreate, .logDebug, .s3BucketResource bucket,
         .s3DeleteKey (remoteArtifactName p)]
    ∧ (s3_remove remote p bucket).2.1 = remoteDelete remote (remoteArtifactName p)
    ∧ ((s3_remove remote p bucket).1.all fun e => !isExistsCheck e) = true := by
  exact ⟨rfl, rfl, rfl⟩

/-- C10: `s3_connection` only constructs a client locally and logs: it
returns `None`, leaves the remote state untouched, performs no remote
call, and its trace and return value are independent of the remote
state, so it cannot distinguish a reachable endpoint from an
unreachable one. -/
theorem C10_s3_connection (remote remote2 : Remote) :
    s3_connection remote = ([.s3ClientCreate, .logDebug], remote, none)
    ∧ ((s3_connection remote).1.all fun e => !isRemoteCall e) = true
    ∧ (s3_connection remote).1 = (s3_connection remote2).1
    ∧ (s3_connection remote).2.2 = (s3_connection remote2).2.2 := by
  exact ⟨rfl, rfl, rfl, rfl⟩

end InboxOps

namespace InboxOps

/-- C4: in every environment, any transport acquired by `sftp_upload`
or `sftp_remove` is closed before the function exits, on success and
on every failure path alike (paths failing before the `Transport`
object exists acquire nothing, so there is nothing to close). -/
theorem C4_transport_closed (env : SftpEnv) (loc : List (List Char))
    (remote : Remote) (p : List Char) :
    closesAcquiredTransport (sftp_upload env loc remote p).1 = true
    ∧ closesAcquiredTransport (sftp_remove env remote p).1 = true := by
  obtain ⟨k, t, c, s, pu⟩ := env
  constructor
  · cases k <;> cases t <;> cases c <;> cases s <;> cases pu <;>
      by_cases hp : p ∈ loc <;>
      simp [sftp_upload, closesAcquiredTransport, hasEv, hp]
  · cases k <;> cases t <;> cases c <;> cases s <;>
      cases hr : remote (remoteArtifactName p) <;>
      simp [sftp_remove, closesAcquiredTransport, hasEv, hr]

/-- C3 counterexample: `sftp_upload` on a missing local file does fail
with the local-file-missing `IOError`, but its trace contains
`transportConnect` — a remote call — refuting "neither function
performs any remote call in that case". -/
theorem C3_counterexample :
    (sftp_upload sftpAllOk [] emptyRemote "data.txt".data).2.2
      = .error (.ioError missingLocalMsg)
    ∧ hasEv .transportConnect (sftp_upload sftpAllOk [] emptyRemote "data.txt".data).1 = true
    ∧ isRemoteCall .transportConnect = true := by
  refine ⟨by decide, by decide, rfl⟩

/-- C3 (amended): on a non-existent local path both upload functions
fail with the local-file-missing `IOError`, the existence check
precedes the upload call and no upload/put is ever attempted, and the
remote state is unchanged; `s3_upload` performs no remote call at all,
but `sftp_upload` (its connection stages succeeding) has already
opened and authenticated the SFTP connection before the check. -/
theorem C3_missing_local_file (s3env : S3Env) (env : SftpEnv)
    (loc : List (List Char)) (remote : Remote) (p bucket : List Char)
    (hp : p ∉ loc)
    (hk : env.keyLoadOk = true) (ht : env.transportOk = true)
    (hc : env.connectOk = true) (hs : env.sftpInitOk = true) :
    (s3_upload s3env loc remote p bucket).2.2 = .error (.ioError missingLocalMsg)
    ∧ (s3_upload s3env loc remote p bucket).2.1 = remote
    ∧ ((s3_upload s3env loc remote p bucket).1.all fun e => !isRemoteCall e) = true
    ∧ (sftp_upload env loc remote p).2.2 = .error (.ioError missingLocalMsg)
    ∧ (sftp_upload env loc remote p).2.1 = remote
    ∧ (∀ l r, hasEv (.sftpPut l r) (sftp_upload env loc remote p).1 = false)
    ∧ hasEv .transportConnect (sftp_upload env loc remote p).1 = true := by
  refine ⟨?_, ?_, ?_, ?_, ?_, fun l r => ?_, ?_⟩ <;>
    simp [s3_upload, sftp_upload, hp, hk, ht, hc, hs, hasEv, isRemoteCall]

/-- Witness for `C3_missing_local_file` at concrete inputs. -/
theorem C3_missing_local_file_witness :
    (s3_upload ⟨true⟩ [] emptyRemote "data.txt".data "inbox".data).2.2
      = .error (.ioError missingLocalMsg)
    ∧ (s3_upload ⟨true⟩ [] emptyRemote "data.txt".data "inbox".data).2.1 = emptyRemote
    ∧ ((s3_upload ⟨true⟩ [] emptyRemote "data.txt".data "inbox".data).1.all
        fun e => !isRemoteCall e) = true
    ∧ (sftp_upload sftpAllOk [] emptyRemote "data.txt".data).2.2
      = .error (.ioError missingLocalMsg)
    ∧ (sftp_upload sftpAllOk [] emptyRemote "data.txt".data).2.1 = emptyRemote
    ∧ (∀ l r, hasEv (.sftpPut l r) (sftp_upload sftpAllOk [] emptyRemote "data.txt".data).1 = false)
    ∧ hasEv .transportConnect (sftp_upload sftpAllOk [] emptyRemote "data.txt".data).1 = true :=
  C3_missing_local_file ⟨true⟩ sftpAllOk [] emptyRemote "data.txt".data "inbox".data
    (by decide) rfl rfl rfl rfl

theorem mem_insertFile_self (w : List Char) (l : List (List Char)) :
    w ∈ insertFile w l := by
  unfold insertFile
  split
  · assumption
  · exact List.mem_cons_self _ _

theorem mem_insertFile_of_mem {a : List Char} {l : List (List Char)}
    (w : List Char) (h : a ∈ l) : a ∈ insertFile w l := by
  unfold insertFile
  split
  · exact h
  · exact List.mem_cons_of_mem _ h

theorem insertFile_eq_of_mem {w : List Char} {l : List (List Char)}
    (h : w ∈ l) : insertFile w l = l := by
  unfold insertFile
  exact if_pos h

/-- A successful `encrypt_file` call pins down the whole environment:
no step failed, the source was present, the un-expanded artifact name
was written into the file table, and the expanded name was returned. -/
theorem encrypt_file_ok_shape {env : EncEnv} {u : UserEnv}
    {loc loc1 : List (List Char)} {p out : List Char}
    (h : encrypt_file env u loc p = (loc1, .ok out)) :
    env.pubKeyExc = none ∧ env.secKeyExc = none ∧ env.openSrcExc = none
    ∧ env.openOutExc = none ∧ env.cryptExc = none ∧ p ∈ loc
    ∧ loc1 = insertFile (encWritten p) loc ∧ out = encReturned u p := by
  obtain ⟨pk, sk, os, oo, cr⟩ := env
  cases pk <;> cases sk <;> cases os <;> cases oo <;> cases cr <;>
    by_cases hp : p ∈ loc <;>
    simp_all [encrypt_file, encWritten, encReturned, Prod.mk.injEq]

end InboxOps

namespace InboxOps

/-- C7: the artifact name is a function of the source path alone
(`expanduser(splitext(file_path)[0] + '.c4ga')`, independent of file
content), and a second `encrypt_file` call on the same source after a
successful one succeeds again, overwrites the same written name, and
leaves the file table and returned path unchanged. -/
theorem C7_idempotent (env : EncEnv) (u : UserEnv) (loc loc1 : List (List Char))
    (p out : List Char)
    (h : encrypt_file env u loc p = (loc1, .ok out)) :
    encrypt_file env u loc1 p = (loc1, .ok out)
    ∧ out = expanduserL u ((splitextL p).1 ++ c4gaSuffix)
    ∧ encWritten p ∈ loc1 := by
  obtain ⟨hpk, hsk, hos, hoo, hcr, hp, hloc, hout⟩ := encrypt_file_ok_shape h
  subst hloc
  refine ⟨?_, hout, mem_insertFile_self _ _⟩
  obtain ⟨pk, sk, os, oo, cr⟩ := env
  simp only at hpk hsk hos hoo hcr
  subst hpk hsk hos hoo hcr
  have hp1 : p ∈ insertFile ((splitextL p).1 ++ c4gaSuffix) loc :=
    mem_insertFile_of_mem _ hp
  have hw : insertFile ((splitextL p).1 ++ c4gaSuffix)
      (insertFile ((splitextL p).1 ++ c4gaSuffix) loc)
      = insertFile ((splitextL p).1 ++ c4gaSuffix) loc :=
    insertFile_eq_of_mem (mem_insertFile_self _ _)
  simp [encrypt_file, hp1, hw, hout, encWritten, encReturned]

/-- Witness for `C7_idempotent`: a second encryption of `a.txt`
overwrites `a.c4ga` without error. -/
theorem C7_idempotent_witness :
    encrypt_file encAllOk uRoot ["a.c4ga".data, "a.txt".data] "a.txt".data
      = (["a.c4ga".data, "a.txt".data], .ok "a.c4ga".data)
    ∧ "a.c4ga".data = expanduserL uRoot ((splitextL "a.txt".data).1 ++ c4gaSuffix)
    ∧ encWritten "a.txt".data ∈ ["a.c4ga".data, "a.txt".data] :=
  C7_idempotent encAllOk uRoot ["a.txt".data] ["a.c4ga".data, "a.txt".data]
    "a.txt".data "a.c4ga".data (by decide)

/-- C9: `encrypt_file` writes the ciphertext under the literal
un-expanded name `splitext(file_path)[0] + '.c4ga'` but returns the
tilde-expanded `os.path.expanduser` of it; the returned path equals
the written one exactly when expansion is the identity on it. -/
theorem C9_tilde_expansion (env : EncEnv) (u : UserEnv)
    (loc loc1 : List (List Char)) (p out : List Char)
    (h : encrypt_file env u loc p = (loc1, .ok out)) :
    loc1 = insertFile (encWritten p) loc
    ∧ encWritten p ∈ loc1
    ∧ out = expanduserL u (encWritten p)
    ∧ (out = encWritten p ↔ expanduserL u (encWritten p) = encWritten p) := by
  obtain ⟨-, -, -, -, -, -, hloc, hout⟩ := encrypt_file_ok_shape h
  subst hloc
  refine ⟨rfl, mem_insertFile_self _ _, hout, ?_⟩
  rw [hout]
  exact Iff.rfl

/-- Witness for `C9_tilde_expansion`: for the source `~/data.txt` with
`HOME=/root`, the file written is `~/data.c4ga` (literally) while the
returned path is `/root/data.c4ga`. -/
theorem C9_tilde_expansion_witness :
    ["~/data.c4ga".data, "~/data.txt".data]
      = insertFile (encWritten "~/data.txt".data) ["~/data.txt".data]
    ∧ encWritten "~/data.txt".data ∈ ["~/data.c4ga".data, "~/data.txt".data]
    ∧ "/root/data.c4ga".data = expanduserL uRoot (encWritten "~/data.txt".data)
    ∧ ("/root/data.c4ga".data = encWritten "~/data.txt".data
        ↔ expanduserL uRoot (encWritten "~/data.txt".data) = encWritten "~/data.txt".data) :=
  C9_tilde_expansion encAllOk uRoot ["~/data.txt".data]
    ["~/data.c4ga".data, "~/data.txt".data] "~/data.txt".data
    "/root/data.c4ga".data (by decide)

/-- C6 counterexample: when the recipient public key cannot be loaded,
`encrypt_file` fails with the raw key error itself, not with an
`EncryptionError` wrapping it. -/
theorem C6_counterexample :
    (encrypt_file encBadPubKey uRoot [] "a.txt".data).2 = .error .keyError
    ∧ isEncryptionWrap .keyError = false := by
  refine ⟨by decide, rfl⟩

/-- C6 (amended): every underlying failure of `encrypt_file` — bad
key, unreadable or missing source, write failure to the destination,
failure of the encrypt call — propagates to the caller as the original
exception, the first one in evaluation order; no `EncryptionError`
wrapper is ever added. -/
theorem C6_error_propagation (env : EncEnv) (u : UserEnv)
    (loc : List (List Char)) (p : List Char) (e : PyExc)
    (hraw : encEnvRaw env = true)
    (h : (encrypt_file env u loc p).2 = .error e) :
    encFirstFailure env loc p = some e ∧ isEncryptionWrap e = false := by
  obtain ⟨pk, sk, os, oo, cr⟩ := env
  cases pk <;> cases sk <;> cases os <;> cases oo <;> cases cr <;>
    by_cases hp : p ∈ loc <;>
    simp_all [encrypt_file, encFirstFailure, encEnvRaw, isEncryptionWrap] <;>
    (subst h; rfl)

/-- Witness for `C6_error_propagation` at the bad-public-key
environment. -/
theorem C6_error_propagation_witness :
    encFirstFailure encBadPubKey [] "a.txt".data = some .keyError
    ∧ isEncryptionWrap .keyError = false :=
  C6_error_propagation encBadPubKey uRoot [] "a.txt".data .keyError
    (by decide) (by decide)

/-- C8: with a working connection, uploading an artifact and removing
it succeed, and a second `sftp_remove` of the same name fails with the
server's missing-file error; the remove trace contains no
remote-existence probe. -/
theorem C8_remove_not_idempotent (env : SftpEnv) (loc : List (List Char))
    (remote : Remote) (p : List Char)
    (henv : env = sftpAllOk) (hp : p ∈ loc) :
    (sftp_upload env loc remote p).2.2 = .ok ()
    ∧ (sftp_remove env (sftp_upload env loc remote p).2.1 p).2.2 = .ok ()
    ∧ (sftp_remove env (sftp_remove env (sftp_upload env loc remote p).2.1 p).2.1 p).2.2
        = .error (.ioError noSuchRemoteFileMsg)
    ∧ ((sftp_remove env (sftp_upload env loc remote p).2.1 p).1.all
        fun e => !isExistsCheck e) = true := by
  subst henv
  simp [sftp_upload, sftp_remove, sftpAllOk, hp, remotePut, remoteDelete,
    isExistsCheck]

/-- Witness for `C8_remove_not_idempotent` at concrete inputs. -/
theorem C8_remove_not_idempotent_witness :
    (sftp_upload sftpAllOk ["data.txt".data] emptyRemote "data.txt".data).2.2 = .ok ()
    ∧ (sftp_remove sftpAllOk
        (sftp_upload sftpAllOk ["data.txt".data] emptyRemote "data.txt".data).2.1
        "data.txt".data).2.2 = .ok ()
    ∧ (sftp_remove sftpAllOk
        (sftp_remove sftpAllOk
          (sftp_upload sftpAllOk ["data.txt".data] emptyRemote "data.txt".data).2.1
          "data.txt".data).2.1
        "data.txt".data).2.2 = .error (.ioError noSuchRemoteFileMsg)
    ∧ ((sftp_remove sftpAllOk
        (sftp_upload sftpAllOk ["data.txt".data] emptyRemote "data.txt".data).2.1
        "data.txt".data).1.all fun e => !isExistsCheck e) = true :=
  C8_remove_not_idempotent sftpAllOk ["data.txt".data] emptyRemote "data.txt".data
    rfl (by decide)

end InboxOps

namespace InboxOps

/-- When every attempt fails, the tenacity loop started at attempt `n`
(with enough fuel) tries exactly the attempts `n, n+1, ..., 7200` and
ends in a `RetryError` carrying the last attempt's exception: the stop
condition `elapsed ≥ 14400` first holds after attempt 7200. -/
theorem tenacityRun_all_fail (body : Nat → Except PyExc Unit)
    (hfail : ∀ n, ∃ e, body n = .error e) :
    ∀ fuel n, 7200 < n + fuel → n ≤ 7200 →
      ∃ e, body 7200 = .error e ∧
        tenacityRun body fuel n = (List.range' n (7201 - n), .retryError 7201 e) := by
  intro fuel
  induction fuel with
  | zero =>
    intro n h1 h2
    exact absurd h2 (by omega)
  | succ fuel ih =>
    intro n h1 h2
    obtain ⟨e, he⟩ := hfail n
    by_cases hn : n = 7200
    · subst hn
      refine ⟨e, he, ?_⟩
      have hstop : stopAfterDelay 14400 (attemptStart 7200) = true := by decide
      simp [tenacityRun, he, hstop, List.range'_succ]
    · obtain ⟨e', he', hrun⟩ := ih (n + 1) (by omega) (by omega)
      refine ⟨e', he', ?_⟩
      have hstop : stopAfterDelay 14400 (attemptStart n) = false := by
        simp only [stopAfterDelay, attemptStart, waitFixedSeconds,
          decide_eq_false_iff_not]
        omega
      have h71 : 7201 - n = (7200 - n) + 1 := by omega
      have h72 : 7201 - (n + 1) = 7200 - n := by omega
      rw [h72] at hrun
      simp only [tenacityRun, he, hstop, Bool.false_eq_true, if_false, hrun,
        h71, List.range'_succ]

/-- C2 counterexample: an unrecognized error (for example the
`FileNotFoundError` of a missing key file, modelled as `otherFail`)
does not propagate immediately — the decorated probe retries it like
any recognized error and makes 7201 attempts, not 1. -/
theorem C2_counterexample :
    (open_ssh_connection "inbox".data (fun _ => ProbeAttempt.otherFail)).2
      = .retryError 7201 .otherError
    ∧ (open_ssh_connection "inbox".data (fun _ => ProbeAttempt.otherFail)).1.length = 7201
    ∧ (7201 : Nat) ≠ 1 := by
  obtain ⟨e, he, hrun⟩ :=
    tenacityRun_all_fail (fun _ => probeBody "inbox".data .otherFail)
      (fun _ => ⟨.otherError, rfl⟩) 7202 0 (by omega) (by omega)
  have he' : e = .otherError := by
    simpa [probeBody] using he.symm
  subst he'
  have hrun' : open_ssh_connection "inbox".data (fun _ => ProbeAttempt.otherFail)
      = (List.range' 0 7201, .retryError 7201 .otherError) := hrun
  rw [hrun']
  refine ⟨rfl, by simp, by decide⟩

/-- C2 (amended): every attempt of `open_ssh_connection` that fails —
with a recognized transport/authentication error or any other
exception alike — is retried with the fixed 2-second wait, and the
probe gives up only when the elapsed time reaches the 4-hour ceiling
(14400 s), after 7201 attempts, raising `RetryError` with the last
exception; no exception propagates without the stop check. -/
theorem C2_retry_policy (hostname : List Char) (att : Nat → ProbeAttempt)
    (hfail : ∀ n, att n ≠ .success) :
    (∃ e, probeBody hostname (att 7200) = .error e ∧
       open_ssh_connection hostname att
         = (List.range' 0 7201, .retryError 7201 e))
    ∧ (open_ssh_connection hostname att).1.length = 7201
    ∧ stopAfterDelay 14400 (attemptStart 7200) = true
    ∧ stopAfterDelay 14400 (attemptStart 7199) = false
    ∧ (∀ n, attemptStart (n + 1) = attemptStart n + waitFixedSeconds) := by
  have hfail' : ∀ n, ∃ e, probeBody hostname (att n) = .error e := by
    intro n
    cases h : att n with
    | success => exact absurd h (hfail n)
    | badHostKey => exact ⟨_, rfl⟩
    | authFail => exact ⟨_, rfl⟩
    | sshFail => exact ⟨_, rfl⟩
    | otherFail => exact ⟨_, rfl⟩
  obtain ⟨e, he, hrun⟩ :=
    tenacityRun_all_fail (fun n => probeBody hostname (att n)) hfail'
      7202 0 (by omega) (by omega)
  have hrun' : open_ssh_connection hostname att
      = (List.range' 0 7201, .retryError 7201 e) := hrun
  refine ⟨⟨e, he, hrun'⟩, ?_, by decide, by decide, ?_⟩
  · rw [hrun']
    simp
  · intro n
    simp [attemptStart, waitFixedSeconds]
    ring

/-- Witness for `C2_retry_policy` at a concrete always-failing
attempt stream (a persistent `SSHException`). -/
theorem C2_retry_policy_witness :
    open_ssh_connection "probe".data (fun _ => ProbeAttempt.sshFail)
      = (List.range' 0 7201,
         .retryError 7201 (.exception ("SSHException on ".data ++ "probe".data))) := by
  obtain ⟨⟨e, he, hrun⟩, -, -, -, -⟩ :=
    C2_retry_policy "probe".data (fun _ => .sshFail) (fun n => by simp)
  have he2 : Except.error (ε := PyExc) (α := Unit)
      (.exception ("SSHException on ".data ++ "probe".data)) = .error e := he
  have he3 : PyExc.exception ("SSHException on ".data ++ "probe".data) = e := by
    exact Except.error.inj he2
  rw [← he3] at hrun
  exact hrun

end InboxOps
